import Mathlib

/-!
Verification of the SupoClip backend core: the retrying connection-pool
manager, the job queue built on it, the service bootstrap/shutdown policy
and the Redis configuration fallback.  Shallow embedding of
src/backend/src/workers/job_queue.py, src/backend/src/database.py,
src/backend/src/main_refactored.py and src/backend/src/config.py.
-/

/-- Python exception classes relevant to the embedded code.  The redis
transient class used by JobQueue.get_pool is (ConnectionError, TimeoutError,
OSError); the database transient class used by init_db is (OperationalError,
DBAPIError, OSError).  valueError models ValueError, otherError any other
exception. -/
inductive PyErr where
  | connectionError
  | timeoutError
  | osError
  | operationalError
  | dbapiError
  | valueError (msg : String)
  | otherError (msg : String)
deriving DecidableEq

/-- retry_if_exception_type((ConnectionError, TimeoutError, OSError)) from
job_queue.py line 32. -/
def redisRetryable : PyErr → Bool
  | PyErr.connectionError => true
  | PyErr.timeoutError => true
  | PyErr.osError => true
  | _ => false

/-- retry_if_exception_type((OperationalError, DBAPIError, OSError)) from
database.py line 68. -/
def dbRetryable : PyErr → Bool
  | PyErr.operationalError => true
  | PyErr.dbapiError => true
  | PyErr.osError => true
  | _ => false

/-- tenacity wait_exponential(multiplier, min, max) with exp_base 2: the wait
before retrying after the failed attempt of the given number is
multiplier * 2 ^ (attempt - 1), clamped below by max 0 min and above by max.
All configured values here are integers, so the embedding uses Nat. -/
def wait_exponential (multiplier mn mx expBase attempt : Nat) : Nat :=
  max (max 0 mn) (min (multiplier * expBase ^ (attempt - 1)) mx)

/-- The backoff policy configured identically on JobQueue.get_pool
(job_queue.py line 31) and init_db (database.py line 67):
wait_exponential(multiplier=1, min=2, max=30). -/
def nextDelay (attempt : Nat) : Nat :=
  wait_exponential 1 2 30 2 attempt

/-- Outcome of one decorated call: the final cached state, the number of
attempts performed, the list of backoff delays slept between attempts, and
the returned value or raised exception. -/
structure RetryOutcome (σ : Type) (α : Type) where
  state : σ
  attempts : Nat
  delays : List Nat
  result : Except PyErr α

/-- The tenacity retry decorator with stop_after_attempt, a wait policy, a
retryable-exception predicate and reraise=True: run the body; on success
return; on a retryable exception with retries left, sleep wait(attempt) and
re-run the body with the attempt number incremented; otherwise re-raise the
body's exception.  retriesLeft is the attempt budget minus one, so
stop_after_attempt(10) corresponds to retriesLeft = 9 at the first attempt. -/
def retryLoop (retryable : PyErr → Bool) (wait : Nat → Nat)
    (body : Nat → σ → σ × Except PyErr α) : Nat → Nat → σ → RetryOutcome σ α
  | 0, attempt, s =>
    match body attempt s with
    | (s1, Except.ok a) => ⟨s1, 1, [], Except.ok a⟩
    | (s1, Except.error e) => ⟨s1, 1, [], Except.error e⟩
  | (r + 1), attempt, s =>
    match body attempt s with
    | (s1, Except.ok a) => ⟨s1, 1, [], Except.ok a⟩
    | (s1, Except.error e) =>
      if retryable e then
        let rest := retryLoop retryable wait body r (attempt + 1) s1
        ⟨rest.state, rest.attempts + 1, wait attempt :: rest.delays, rest.result⟩
      else ⟨s1, 1, [], Except.error e⟩

/-- A broker-side job record: the status string the broker reports for the
job (arq statuses such as queued, in_progress, complete, failed). -/
structure JobRecord where
  status : String
deriving DecidableEq

/-- An arq Redis pool handle (ArqRedis).  The id distinguishes separately
created connections; jobs is the broker state reachable through the handle:
the records the broker holds, keyed by job identifier. -/
structure Handle where
  id : Nat
  jobs : List (String × JobRecord)
deriving DecidableEq

/-- The body of JobQueue.get_pool (job_queue.py lines 35-45): if the cached
class attribute _pool is set return it, otherwise call create_pool and cache
the result; a raised exception leaves _pool unset and is re-raised.
create_pool is the external connection constructor, indexed by the attempt
number so failure patterns can be expressed. -/
def getPoolBody (create_pool : Nat → Except PyErr Handle) (attempt : Nat)
    (pool : Option Handle) : Option Handle × Except PyErr Handle :=
  match pool with
  | some p => (some p, Except.ok p)
  | none =>
    match create_pool attempt with
    | Except.ok h => (some h, Except.ok h)
    | Except.error e => (none, Except.error e)

/-- JobQueue.get_pool (job_queue.py lines 28-45): the body under the tenacity
decorator stop_after_attempt(10), wait_exponential(multiplier=1, min=2,
max=30), retry on (ConnectionError, TimeoutError, OSError), reraise=True.
Takes the current cached pool state and returns the outcome. -/
def get_pool (create_pool : Nat → Except PyErr Handle) (pool : Option Handle) :
    RetryOutcome (Option Handle) Handle :=
  retryLoop redisRetryable nextDelay (getPoolBody create_pool) 9 1 pool

/-- The body of init_db (database.py lines 70-84): open a connection, run
SELECT 1 and create the tables; any exception is logged and re-raised.  The
whole external interaction is the connect argument, indexed by attempt
number. -/
def initDbBody (connect : Nat → Except PyErr Unit) (attempt : Nat) (_ : Unit) :
    Unit × Except PyErr Unit :=
  ((), connect attempt)

/-- init_db (database.py lines 63-84): the body under the same tenacity
decorator configuration as get_pool, with the database transient class
(OperationalError, DBAPIError, OSError). -/
def init_db (connect : Nat → Except PyErr Unit) : RetryOutcome Unit Unit :=
  retryLoop dbRetryable nextDelay (initDbBody connect) 9 1 ()

/-- Broker-side job lookup, the external call pool.job(job_id) in
job_queue.py lines 77 and 86: yields the broker's record for the identifier
when one exists, and a falsy result when the broker has no record. -/
def pool_job (h : Handle) (job_id : String) : Option JobRecord :=
  (h.jobs.find? (fun kv => kv.1 == job_id)).map (fun kv => kv.2)

/-- JobQueue.get_job_status (job_queue.py lines 82-89): obtain the pool via
get_pool, look the job up by identifier; if a record exists return its status
via the external job.status() accessor, otherwise return None.  The first
component is the cached pool state after the call; the second the returned
value or raised exception. -/
def get_job_status (create_pool : Nat → Except PyErr Handle)
    (pool : Option Handle) (job_id : String) :
    Option Handle × Except PyErr (Option String) :=
  let r := get_pool create_pool pool
  match r.result with
  | Except.error e => (r.state, Except.error e)
  | Except.ok h =>
    (r.state, Except.ok (match pool_job h job_id with
      | some j => some j.status
      | none => none))

/-- A job as submitted to the broker: target function name, positional and
keyword arguments, destination queue name and broker-assigned identifier. -/
structure SubmittedJob where
  functionName : String
  args : List String
  kwargs : List (String × String)
  queue : String
  job_id : String
deriving DecidableEq

/-- The external broker submission call pool.enqueue_job(function_name,
*args, _queue_name=..., **kwargs) in job_queue.py line 69: records the job
under the given queue name and returns it carrying the broker-assigned
identifier. -/
def pool_enqueue_job (assignedId : String) (function_name : String)
    (args : List String) (queue_name : String)
    (kwargs : List (String × String)) : SubmittedJob :=
  ⟨function_name, args, kwargs, queue_name, assignedId⟩

/-- JobQueue.enqueue_job (job_queue.py lines 55-71): obtain the pool via
get_pool, submit the job with the hard-coded destination queue
supoclip_tasks, return the job identifier.  The submitted job is returned
alongside the identifier so its destination queue can be observed. -/
def enqueue_job (create_pool : Nat → Except PyErr Handle)
    (pool : Option Handle) (assignedId : String) (function_name : String)
    (args : List String) (kwargs : List (String × String)) :
    Option Handle × Except PyErr (SubmittedJob × String) :=
  let r := get_pool create_pool pool
  match r.result with
  | Except.error e => (r.state, Except.error e)
  | Except.ok _ =>
    let job := pool_enqueue_job assignedId function_name args
      "supoclip_tasks" kwargs
    (r.state, Except.ok (job, job.job_id))

/-- JobQueue.close_pool (job_queue.py lines 47-53): if a pool is cached,
await its close and clear the cache; otherwise do nothing.  Returns the new
cached state and whether the underlying close was invoked. -/
def close_pool (pool : Option Handle) : Option Handle × Bool :=
  match pool with
  | some _ => (none, true)
  | none => (none, false)

/-- Events observable during lifespan startup (main_refactored.py lines
47-64): which subsystem initializations were attempted. -/
inductive StartupEvent where
  | dbInitAttempted
  | queueInitAttempted
deriving DecidableEq

/-- Outcome of process startup: either the application reaches the running
state (with the two readiness flags and the attempted-init events), or
module import raised and the process exited before the lifespan ran. -/
inductive StartupOutcome where
  | running (dbInitialized queueInitialized : Bool) (events : List StartupEvent)
  | importError (msg : String)
deriving DecidableEq

/-- Whether a startup outcome is the running (possibly degraded) state. -/
def StartupOutcome.isRunning : StartupOutcome → Bool
  | StartupOutcome.running _ _ _ => true
  | StartupOutcome.importError _ => false

/-- Whether an Except value is a success (no exception raised). -/
def exceptOk : Except PyErr α → Bool
  | Except.ok _ => true
  | Except.error _ => false

/-- Module-level code of database.py (lines 16-32): read DATABASE_URL from
the environment; if unset or empty raise ValueError; otherwise rewrite the
scheme to the asyncpg driver and strip a sslmode query parameter, yielding
the final URL.  This runs at import time, before the application lifespan. -/
def databaseModuleLoad (databaseUrlEnv : Option String) : Except PyErr String :=
  match databaseUrlEnv with
  | none => Except.error (PyErr.valueError "DATABASE_URL is missing")
  | some url =>
    if url = "" then Except.error (PyErr.valueError "DATABASE_URL is missing")
    else
      let url2 := (url.replace "postgres://" "postgresql+asyncpg://").replace
        "postgresql://" "postgresql+asyncpg://"
      let url3 := if (url2.splitOn "?sslmode").length > 1 then
          (url2.splitOn "?sslmode").headD url2
        else url2
      Except.ok url3

/-- The startup half of lifespan (main_refactored.py lines 42-72): attempt
init_db, catching any exception; then attempt JobQueue.get_pool, catching
any exception; each flag is set exactly when its call succeeded, and both
initializations are always attempted, in order. -/
def lifespanStartup (dbInit : Except PyErr Unit)
    (queueInit : Except PyErr Handle) : Bool × Bool × List StartupEvent :=
  (exceptOk dbInit, exceptOk queueInit,
    [StartupEvent.dbInitAttempted, StartupEvent.queueInitAttempted])

/-- Full process startup: main_refactored.py imports database.py at module
level (line 20), so databaseModuleLoad runs first and a raised ValueError
aborts the process; only if the import succeeds does the lifespan startup
run, with the given outcomes for the init_db and get_pool calls. -/
def processStartup (databaseUrlEnv : Option String)
    (dbInit : Except PyErr Unit) (queueInit : Except PyErr Handle) :
    StartupOutcome :=
  match databaseModuleLoad databaseUrlEnv with
  | Except.error (PyErr.valueError m) => StartupOutcome.importError m
  | Except.error _ => StartupOutcome.importError "import failed"
  | Except.ok _ =>
    match lifespanStartup dbInit queueInit with
    | (dbOk, queueOk, events) => StartupOutcome.running dbOk queueOk events

/-- Result of the shutdown half of lifespan: whether engine.dispose ran
(close_db, database.py lines 87-89), the final cached queue pool, and
whether the underlying pool close was invoked. -/
structure ShutdownResult where
  dbDisposed : Bool
  pool : Option Handle
  poolCloseCalled : Bool
deriving DecidableEq

/-- The shutdown half of lifespan (main_refactored.py lines 74-81): close_db
is called only if db_initialized is set, and JobQueue.close_pool only if
queue_initialized is set; the flags are the ones recorded at bootstrap. -/
def lifespanShutdown (dbInitialized queueInitialized : Bool)
    (pool : Option Handle) : ShutdownResult :=
  let dbDisposed := dbInitialized
  if queueInitialized then
    match close_pool pool with
    | (p, called) => ⟨dbDisposed, p, called⟩
  else
    ⟨dbDisposed, pool, false⟩

/-- The control state of one asyncio task executing the body of
JobQueue.get_pool (job_queue.py lines 35-45): ready means it is about to run
the body from the top; awaitingCreate means it passed the cached-pool check,
found _pool unset, and is suspended inside await create_pool; done carries
the handle the call returned. -/
inductive TaskState where
  | ready
  | awaitingCreate
  | done (h : Handle)
deriving DecidableEq

/-- Shared interpreter state for concurrent get_pool calls: the class
attribute _pool, the number of create_pool invocations started, and the
per-task control states. -/
structure ConcState where
  pool : Option Handle
  createCalls : Nat
  tasks : List TaskState
deriving DecidableEq

/-- One cooperative scheduler step running task i up to its next suspension
point, following the body of get_pool: a ready task checks _pool — if cached
it completes with the cached handle, otherwise it starts create_pool and
suspends at the await; a resumed task receives its freshly created
connection (distinct per creation, modelled by the task index), assigns
_pool and completes.  There is no lock in the source, so nothing prevents
several tasks from being suspended in create_pool at once. -/
def stepTask (s : ConcState) (i : Nat) : ConcState :=
  match s.tasks.get? i with
  | none => s
  | some TaskState.ready =>
    match s.pool with
    | some p => { s with tasks := s.tasks.set i (TaskState.done p) }
    | none =>
      { s with tasks := s.tasks.set i TaskState.awaitingCreate,
               createCalls := s.createCalls + 1 }
  | some TaskState.awaitingCreate =>
    { s with pool := some ⟨i, []⟩,
             tasks := s.tasks.set i (TaskState.done ⟨i, []⟩) }
  | some (TaskState.done _) => s

/-- Run a cooperative schedule: at each step the named task runs to its next
suspension point. -/
def runSched (s : ConcState) (sched : List Nat) : ConcState :=
  sched.foldl stepTask s

/-- Python truthiness of an optional environment string: set and nonempty. -/
def truthy : Option String → Bool
  | none => false
  | some s => s != ""

/-- Models urllib.parse.urlparse netloc extraction for scheme://netloc/...
URLs as used on redis URLs in config.py line 34: everything after the first
double slash, up to the next slash, question mark or hash. -/
def urlNetloc (url : String) : String :=
  match url.splitOn "//" with
  | [] => ""
  | [_] => ""
  | _ :: rest =>
    (((((String.intercalate "//" rest).splitOn "/").headD "").splitOn
      "?").headD "").splitOn "#" |>.headD ""

/-- The host:port part of a netloc: everything after the last at sign. -/
def urlHostport (netloc : String) : String :=
  (netloc.splitOn "@").getLastD ""

/-- Models urlparse hostname: the part of host:port before the first colon,
lowercased; None when empty. -/
def urlHostname (netloc : String) : Option String :=
  let h := ((urlHostport netloc).splitOn ":").headD ""
  if h = "" then none else some h.toLower

/-- Models urlparse port: the digits after the last colon of host:port, when
present and numeric. -/
def urlPort (netloc : String) : Option Nat :=
  match (urlHostport netloc).splitOn ":" with
  | [] => none
  | [_] => none
  | parts => (parts.getLastD "").toNat?

/-- Models urlparse password: in the userinfo before the last at sign, the
part after the first colon; None when there is no at sign or no colon. -/
def urlPassword (netloc : String) : Option String :=
  match netloc.splitOn "@" with
  | [] => none
  | [_] => none
  | parts =>
    match (String.intercalate "@" parts.dropLast).splitOn ":" with
    | [] => none
    | [_] => none
    | _ :: rest => some (String.intercalate ":" rest)

/-- The Redis part of a Config object (config.py lines 28-46). -/
structure RedisConfig where
  redis_url : String
  redis_host : Option String
  redis_port : Option Nat
  redis_password : Option String
deriving DecidableEq

/-- Python int() on a decimal string, as applied to REDIS_PORT in config.py
line 41: the number denoted by a nonempty all-digit string, an error
otherwise. -/
def strToNat? (s : String) : Option Nat :=
  if s.data ≠ [] ∧ s.data.all Char.isDigit then
    some (s.data.foldl (fun n c => n * 10 + (c.toNat - 48)) 0)
  else none

/-- The Redis section of Config.__init__ (config.py lines 28-46): if
REDIS_URL is set (truthy), host, port and password are parsed from it with
urlparse; otherwise they fall back to REDIS_HOST (default localhost),
int(REDIS_PORT) (default 6379) and REDIS_PASSWORD, and a canonical URL
redis://[:password@]host:port is reconstructed, the auth segment present
exactly when the password is truthy.  A non-numeric REDIS_PORT makes int()
raise ValueError. -/
def configRedisInit (redisUrlEnv redisHostEnv redisPortEnv
    redisPasswordEnv : Option String) : Except PyErr RedisConfig :=
  if truthy redisUrlEnv then
    let url := redisUrlEnv.getD ""
    let netloc := urlNetloc url
    Except.ok ⟨url, urlHostname netloc, urlPort netloc, urlPassword netloc⟩
  else
    let host := redisHostEnv.getD "localhost"
    match strToNat? (redisPortEnv.getD "6379") with
    | none => Except.error (PyErr.valueError "invalid REDIS_PORT")
    | some port =>
      let auth := match redisPasswordEnv with
        | some pw => if pw = "" then "" else ":" ++ pw ++ "@"
        | none => ""
      Except.ok ⟨"redis://" ++ auth ++ host ++ ":" ++ toString port,
        some host, some port, redisPasswordEnv⟩

/-- Helper: against a backend failing with a retryable error on every
attempt, the retry loop over the get_pool body uses its whole budget, leaves
the cached state clear, and its final error is the last attempt's error. -/
theorem retryLoop_getPoolBody_allFail (retryable : PyErr → Bool)
    (wait : Nat → Nat) (create_pool : Nat → Except PyErr Handle)
    (hfail : ∀ n, ∃ e, create_pool n = Except.error e ∧ retryable e = true) :
    ∀ r a, (retryLoop retryable wait (getPoolBody create_pool) r a none).state
        = none ∧
      (retryLoop retryable wait (getPoolBody create_pool) r a none).attempts
        = r + 1 ∧
      ∃ e, (retryLoop retryable wait (getPoolBody create_pool) r a none).result
          = Except.error e ∧ create_pool (a + r) = Except.error e := by
  intro r
  induction r with
  | zero =>
    intro a
    obtain ⟨e, he, -⟩ := hfail a
    refine ⟨?_, ?_, e, ?_, ?_⟩ <;> simp [retryLoop, getPoolBody, he]
  | succ r ih =>
    intro a
    obtain ⟨e, he, hr⟩ := hfail a
    obtain ⟨h1, h2, e2, h3, h4⟩ := ih (a + 1)
    have hstep : retryLoop retryable wait (getPoolBody create_pool) (r + 1) a
        none
        = ⟨(retryLoop retryable wait (getPoolBody create_pool) r (a + 1)
              none).state,
           (retryLoop retryable wait (getPoolBody create_pool) r (a + 1)
              none).attempts + 1,
           wait a :: (retryLoop retryable wait (getPoolBody create_pool) r
              (a + 1) none).delays,
           (retryLoop retryable wait (getPoolBody create_pool) r (a + 1)
              none).result⟩ := by
      simp [retryLoop, getPoolBody, he, hr]
    rw [hstep]
    refine ⟨h1, by simp [h2], e2, h3, ?_⟩
    have hidx : a + (r + 1) = (a + 1) + r := by omega
    rw [hidx]
    exact h4

/-- Claim C2: against a backend whose connection attempts always fail with a
transient (retryable) error, get_pool performs exactly 10 attempts, raises
the terminal error of the exhausted sequence (the last attempt's error) to
the caller, and leaves the cached-pool state clear; a subsequent call starts
a fresh sequence at attempt 1 with the same 10-attempt budget, and a
subsequent call whose backend succeeds immediately returns a fresh handle on
its first attempt (no permanent poisoning). -/
theorem get_pool_exhaustion (create_pool : Nat → Except PyErr Handle)
    (hfail : ∀ n, ∃ e, create_pool n = Except.error e ∧
      redisRetryable e = true) :
    (get_pool create_pool none).attempts = 10 ∧
    (get_pool create_pool none).state = none ∧
    (∃ e, (get_pool create_pool none).result = Except.error e ∧
      create_pool 10 = Except.error e) ∧
    (get_pool create_pool (get_pool create_pool none).state).attempts = 10 ∧
    (∀ (h2 : Handle) (create2 : Nat → Except PyErr Handle),
      create2 1 = Except.ok h2 →
      get_pool create2 (get_pool create_pool none).state
        = ⟨some h2, 1, [], Except.ok h2⟩) := by
  obtain ⟨h1, h2, e, h3, h4⟩ :=
    retryLoop_getPoolBody_allFail redisRetryable nextDelay create_pool hfail 9 1
  refine ⟨h2, h1, ⟨e, h3, h4⟩, ?_, ?_⟩
  · show (get_pool create_pool (get_pool create_pool none).state).attempts = 10
    have : (get_pool create_pool none).state = none := h1
    rw [this]
    exact h2
  · intro hd create2 hok
    have : (get_pool create_pool none).state = none := h1
    rw [this]
    simp [get_pool, retryLoop, getPoolBody, hok]

/-- Witness for C2: the concretely always-failing backend. -/
theorem get_pool_exhaustion_witness :
    (get_pool (fun _ => Except.error PyErr.connectionError) none).attempts
      = 10 ∧
    (get_pool (fun _ => Except.error PyErr.connectionError) none).state
      = none :=
  ⟨(get_pool_exhaustion (fun _ => Except.error PyErr.connectionError)
      (fun _ => ⟨PyErr.connectionError, rfl, rfl⟩)).1,
   (get_pool_exhaustion (fun _ => Except.error PyErr.connectionError)
      (fun _ => ⟨PyErr.connectionError, rfl, rfl⟩)).2.1⟩

/-- Claim C3: a failure outside the configured transient class on the first
attempt is never retried: get_pool and init_db each perform exactly one
attempt, sleep no backoff delay (the slept-delay list is empty), and
propagate the error immediately. -/
theorem nonTransient_no_retry (create_pool : Nat → Except PyErr Handle)
    (connect : Nat → Except PyErr Unit) (e1 e2 : PyErr)
    (h1 : create_pool 1 = Except.error e1) (h1n : redisRetryable e1 = false)
    (h2 : connect 1 = Except.error e2) (h2n : dbRetryable e2 = false) :
    get_pool create_pool none = ⟨none, 1, [], Except.error e1⟩ ∧
    init_db connect = ⟨(), 1, [], Except.error e2⟩ := by
  constructor
  · simp [get_pool, retryLoop, getPoolBody, h1, h1n]
  · simp [init_db, retryLoop, initDbBody, h2, h2n]

/-- Witness for C3: a ValueError (for example a malformed connection string)
on the first attempt of each backend. -/
theorem nonTransient_no_retry_witness :
    get_pool (fun _ => Except.error (PyErr.valueError "bad URL")) none
      = ⟨none, 1, [], Except.error (PyErr.valueError "bad URL")⟩ ∧
    init_db (fun _ => Except.error (PyErr.valueError "bad URL"))
      = ⟨(), 1, [], Except.error (PyErr.valueError "bad URL")⟩ :=
  nonTransient_no_retry _ _ _ _ rfl rfl rfl rfl

/-- Claim C4: the backoff delay is a pure function of the attempt number,
the exponential 1 * 2 ^ (attempt - 1) clamped to the configured interval
from 2 to 30, and over the attempt range 1..10 it is bounded by that
interval and monotonically non-decreasing. -/
theorem nextDelay_monotone_bounded (n m : Nat) (h1 : 1 ≤ n) (hnm : n ≤ m)
    (hm : m ≤ 10) :
    nextDelay n = max 2 (min (1 * 2 ^ (n - 1)) 30) ∧
    2 ≤ nextDelay n ∧ nextDelay n ≤ 30 ∧ nextDelay n ≤ nextDelay m := by
  refine ⟨rfl, ?_, ?_, ?_⟩
  · simp [nextDelay, wait_exponential]
  · simp only [nextDelay, wait_exponential]
    exact max_le (by norm_num) (le_trans (min_le_right _ _) (by norm_num))
  · simp only [nextDelay, wait_exponential, one_mul]
    refine max_le_max le_rfl (min_le_min ?_ le_rfl)
    exact Nat.pow_le_pow_right (by norm_num) (Nat.sub_le_sub_right hnm 1)

/-- Witness for C4 at attempts 3 and 5. -/
theorem nextDelay_monotone_bounded_witness :
    nextDelay 3 = max 2 (min (1 * 2 ^ (3 - 1)) 30) ∧
    2 ≤ nextDelay 3 ∧ nextDelay 3 ≤ 30 ∧ nextDelay 3 ≤ nextDelay 5 :=
  nextDelay_monotone_bounded 3 5 (by decide) (by decide) (by decide)

/-- Claim C5: for every job identifier for which the broker has no record
(including never-submitted identifiers), get_job_status on an established
pool returns None as a normal value, not an exception. -/
theorem get_job_status_not_found (create_pool : Nat → Except PyErr Handle)
    (h : Handle) (job_id : String) (hj : pool_job h job_id = none) :
    get_job_status create_pool (some h) job_id = (some h, Except.ok none) := by
  simp [get_job_status, get_pool, retryLoop, getPoolBody, hj]

/-- Witness for C5: a broker holding one unrelated record, queried with a
never-submitted identifier. -/
theorem get_job_status_not_found_witness :
    get_job_status (fun _ => Except.error PyErr.connectionError)
      (some ⟨0, [("job-a", ⟨"queued"⟩)]⟩) "never-submitted"
      = (some ⟨0, [("job-a", ⟨"queued"⟩)]⟩, Except.ok none) :=
  get_job_status_not_found _ _ _ rfl

/-- Claim C10: every job successfully submitted through enqueue_job is
destined for the single fixed queue supoclip_tasks — the operation exposes
no destination-queue parameter, so for all function names, argument
payloads and broker-assigned identifiers the submitted job's queue equals
supoclip_tasks, and the returned identifier is the job's broker-assigned
one. -/
theorem enqueue_job_fixed_queue (create_pool : Nat → Except PyErr Handle)
    (pool : Option Handle) (assignedId function_name : String)
    (args : List String) (kwargs : List (String × String))
    (st : Option Handle) (job : SubmittedJob) (jid : String)
    (h : enqueue_job create_pool pool assignedId function_name args kwargs
      = (st, Except.ok (job, jid))) :
    job.queue = "supoclip_tasks" ∧ jid = job.job_id := by
  simp only [enqueue_job] at h
  cases hres : (get_pool create_pool pool).result with
  | error e =>
    rw [hres] at h
    simp at h
  | ok hd =>
    rw [hres] at h
    rw [Prod.mk.injEq] at h
    obtain ⟨-, h2⟩ := h
    rw [Except.ok.injEq, Prod.mk.injEq] at h2
    obtain ⟨hjob, hjid⟩ := h2
    subst hjob
    exact ⟨rfl, hjid.symm⟩

/-- Witness for C10: a concrete submission against a pool created on the
first attempt. -/
theorem enqueue_job_fixed_queue_witness :
    (pool_enqueue_job "j1" "transcode" [] "supoclip_tasks"
      [("videoId", "abc")]).queue = "supoclip_tasks" :=
  (enqueue_job_fixed_queue (fun _ => Except.ok ⟨0, []⟩) none "j1" "transcode"
    [] [("videoId", "abc")] (some ⟨0, []⟩)
    (pool_enqueue_job "j1" "transcode" [] "supoclip_tasks"
      [("videoId", "abc")]) "j1" rfl).1

/-- Claim C1 counterexample: with DATABASE_URL unset and both dependencies
perfectly able to initialize, the module-level ValueError in database.py
aborts process startup at import time — the running (degraded) state is
never reached and neither initialization is attempted. -/
theorem processStartup_missing_url_aborts :
    (processStartup none (Except.ok ()) (Except.ok ⟨0, []⟩)).isRunning = false
      ∧ processStartup none (Except.ok ()) (Except.ok ⟨0, []⟩)
        = StartupOutcome.importError "DATABASE_URL is missing" :=
  ⟨rfl, rfl⟩

/-- Claim C1 amended: when DATABASE_URL is set and nonempty, the database
and queue initializations are attempted independently during the lifespan —
any exception raised by init_db or get_pool is caught, does not prevent the
other initialization from being attempted, does not abort startup, and only
leaves that subsystem's readiness flag false; with DATABASE_URL unset,
however, database.py raises ValueError at module import and the process
never reaches the running state. -/
theorem processStartup_independent (url : String) (hurl : url ≠ "")
    (dbInit : Except PyErr Unit) (queueInit : Except PyErr Handle) :
    processStartup (some url) dbInit queueInit
      = StartupOutcome.running (exceptOk dbInit) (exceptOk queueInit)
        [StartupEvent.dbInitAttempted, StartupEvent.queueInitAttempted] ∧
    (processStartup none dbInit queueInit).isRunning = false := by
  constructor
  · simp [processStartup, databaseModuleLoad, hurl, lifespanStartup]
  · rfl

/-- Witness for C1 amended: database init raises OSError after retries,
queue init succeeds — the process runs degraded with flags false and true. -/
theorem processStartup_independent_witness :
    processStartup (some "postgresql://u:p@h:5432/db")
      (Except.error PyErr.osError) (Except.ok ⟨0, []⟩)
      = StartupOutcome.running false true
        [StartupEvent.dbInitAttempted, StartupEvent.queueInitAttempted] :=
  (processStartup_independent "postgresql://u:p@h:5432/db" (by decide)
    (Except.error PyErr.osError) (Except.ok ⟨0, []⟩)).1

/-- Claim C7 counterexample: with both readiness flags false at bootstrap
and a live queue pool (for example created by a lazy first-use retry after
the degraded start), shutdown closes nothing: the live pool survives and
engine.dispose is never invoked. -/
theorem lifespanShutdown_skips_lazy_pool :
    (lifespanShutdown false false (some ⟨7, []⟩)).pool = some ⟨7, []⟩ ∧
    (lifespanShutdown false false (some ⟨7, []⟩)).poolCloseCalled = false ∧
    (lifespanShutdown false false (some ⟨7, []⟩)).dbDisposed = false :=
  ⟨rfl, rfl, rfl⟩

/-- Claim C7 amended: shutdown disposes each subsystem's handle exactly when
that subsystem's readiness flag was set during bootstrap: engine.dispose
runs iff db_initialized, and close_pool runs iff queue_initialized, closing
the cached pool when one exists; disposing an absent pool is a no-op.  A
handle live while its flag is false — such as one created by a lazy
first-use retry after a degraded start — is not disposed. -/
theorem lifespanShutdown_flag_gated (db q : Bool) (pool : Option Handle) :
    (lifespanShutdown db q pool).dbDisposed = db ∧
    (lifespanShutdown db q pool).pool = (if q then none else pool) ∧
    (lifespanShutdown db q pool).poolCloseCalled = (q && pool.isSome) ∧
    close_pool none = (none, false) := by
  cases q <;> cases pool <;> simp [lifespanShutdown, close_pool]

/-- The warm-pool invariant: the cached handle is p, the creation-call count
is c, and every task is still ready or finished holding the shared handle. -/
def cachedInv (p : Handle) (c : Nat) (s : ConcState) : Prop :=
  s.pool = some p ∧ s.createCalls = c ∧
  ∀ t ∈ s.tasks, t = TaskState.ready ∨ t = TaskState.done p

/-- Helper: one scheduler step preserves the warm-pool invariant. -/
theorem stepTask_cachedInv (p : Handle) (c : Nat) (s : ConcState) (i : Nat)
    (h : cachedInv p c s) : cachedInv p c (stepTask s i) := by
  obtain ⟨hp, hc, ht⟩ := h
  cases hg : s.tasks.get? i with
  | none =>
    simp only [stepTask, hg]
    exact ⟨hp, hc, ht⟩
  | some t =>
    have htmem : t ∈ s.tasks := List.get?_mem hg
    cases t with
    | ready =>
      simp only [stepTask, hg, hp]
      refine ⟨rfl, hc, ?_⟩
      intro u hu
      rcases List.mem_or_eq_of_mem_set hu with h1 | h1
      · exact ht u h1
      · right; rw [h1]
    | awaitingCreate =>
      rcases ht _ htmem with h1 | h1 <;> simp at h1
    | done hd =>
      simp only [stepTask, hg]
      exact ⟨hp, hc, ht⟩

/-- Helper: any schedule preserves the warm-pool invariant. -/
theorem runSched_cachedInv (p : Handle) (c : Nat) (sched : List Nat)
    (s : ConcState) (h : cachedInv p c s) :
    cachedInv p c (runSched s sched) := by
  induction sched generalizing s with
  | nil => exact h
  | cons i rest ih => exact ih (stepTask s i) (stepTask_cachedInv p c s i h)

/-- Claim C8 counterexample: two get_pool calls against a cold pool,
interleaved at the await inside create_pool, both pass the unset-pool check
and both start their own connection attempt — two creation sequences are in
flight at once, and the two callers finish with distinct handles. -/
theorem get_pool_concurrent_duplicate :
    (runSched ⟨none, 0, [TaskState.ready, TaskState.ready]⟩
        [0, 1]).createCalls = 2 ∧
    (runSched ⟨none, 0, [TaskState.ready, TaskState.ready]⟩ [0, 1]).tasks
      = [TaskState.awaitingCreate, TaskState.awaitingCreate] ∧
    (runSched ⟨none, 0, [TaskState.ready, TaskState.ready]⟩
        [0, 1, 0, 1]).tasks
      = [TaskState.done ⟨0, []⟩, TaskState.done ⟨1, []⟩] :=
  ⟨rfl, rfl, rfl⟩

/-- Claim C8 amended: once a pool handle is cached, get_pool calls under any
schedule trigger no further connection attempt and every caller that
finishes observes the same shared cached handle; against a cold pool,
however, creation is not serialized — callers interleaved at the in-flight
await each start their own redundant attempt. -/
theorem get_pool_concurrency_amended (p : Handle) (c : Nat)
    (ts : List TaskState) (sched : List Nat)
    (hts : ∀ t ∈ ts, t = TaskState.ready ∨ t = TaskState.done p) :
    ((runSched ⟨some p, c, ts⟩ sched).createCalls = c ∧
     (runSched ⟨some p, c, ts⟩ sched).pool = some p ∧
     ∀ t ∈ (runSched ⟨some p, c, ts⟩ sched).tasks,
       t = TaskState.ready ∨ t = TaskState.done p) ∧
    (runSched ⟨none, 0, [TaskState.ready, TaskState.ready]⟩
        [0, 1]).createCalls = 2 := by
  obtain ⟨h1, h2, h3⟩ :=
    runSched_cachedInv p c sched ⟨some p, c, ts⟩ ⟨rfl, rfl, hts⟩
  exact ⟨⟨h2, h1, h3⟩, rfl⟩

/-- Witness for C8 amended: a warm pool shared by a late caller. -/
theorem get_pool_concurrency_amended_witness :
    (runSched ⟨some ⟨3, []⟩, 1, [TaskState.ready, TaskState.done ⟨3, []⟩]⟩
      [0, 1, 0]).createCalls = 1 :=
  (get_pool_concurrency_amended ⟨3, []⟩ 1
    [TaskState.ready, TaskState.done ⟨3, []⟩] [0, 1, 0] (by decide)).1.1

/-- Claim C9: when REDIS_URL is absent the configuration falls back to the
discrete host, port and password settings with defaults localhost, 6379 and
no password, and reconstructs the canonical URL
redis:// [:password@] host:port, the auth segment present exactly when a
password is configured; when REDIS_URL is present, host, port and password
are parsed from it. -/
theorem configRedis_spec (host portStr pw : String) (port : Nat)
    (hport : strToNat? portStr = some port) (hpw : pw ≠ "")
    (url : String) (hurl : url ≠ "")
    (hostEnv portEnv passwordEnv : Option String) :
    configRedisInit none none none none
      = Except.ok ⟨"redis://" ++ "" ++ "localhost" ++ ":" ++ toString 6379,
          some "localhost", some 6379, none⟩ ∧
    configRedisInit none (some host) (some portStr) (some pw)
      = Except.ok ⟨"redis://" ++ (":" ++ pw ++ "@") ++ host ++ ":"
          ++ toString port, some host, some port, some pw⟩ ∧
    configRedisInit none (some host) (some portStr) none
      = Except.ok ⟨"redis://" ++ "" ++ host ++ ":" ++ toString port,
          some host, some port, none⟩ ∧
    configRedisInit (some url) hostEnv portEnv passwordEnv
      = Except.ok ⟨url, urlHostname (urlNetloc url), urlPort (urlNetloc url),
          urlPassword (urlNetloc url)⟩ := by
  refine ⟨rfl, ?_, ?_, ?_⟩
  · simp [configRedisInit, truthy, hport, hpw]
  · simp [configRedisInit, truthy, hport]
  · simp [configRedisInit, truthy, hurl]

/-- Witness for C9: concrete discrete settings with a password, and a
concrete REDIS_URL. -/
theorem configRedis_spec_witness :
    configRedisInit none (some "redis.internal") (some "6380")
      (some "s3cret")
      = Except.ok ⟨"redis://" ++ (":" ++ "s3cret" ++ "@") ++ "redis.internal"
          ++ ":" ++ toString 6380, some "redis.internal", some 6380,
          some "s3cret"⟩ :=
  (configRedis_spec "redis.internal" "6380" "s3cret" 6380 rfl (by decide)
    "redis://user:pw@h:1" (by decide) none none none).2.1
